import Mathlib

set_option autoImplicit false

/-
Shallow embedding of the CalendarToSlack webhook handler (handler.ts):
request authentication (validateSlackRequest / validateTimestamp), the
command tokenizer, the status-mapping store operations (handleShow,
handleSet, handleRemove, handleSetDefault, handleRemoveDefault), the
command dispatch table, the event router (handleSlackEventCallback) and
the top-level handler.

Conventions of the embedding:
- JavaScript strings are Lean String; a value of TypeScript type
  `string | undefined` is Option String (none = undefined).
- JavaScript numbers reached by this code are either NaN or integers,
  embedded as JSNum.
- Asynchronous collaborator calls (secret store, Slack client, dynamo)
  are fields of an Env record; each call is recorded in an effect trace.
- Thrown exceptions are Except.error; the computation type EffM pairs an
  Except result with the list of collaborator calls performed.
-/

namespace CalendarToSlack

/-! ## JavaScript primitive models -/

/-- Model of the JavaScript numbers reachable in this code: an integer or NaN. -/
inductive JSNum where
  | nan : JSNum
  | int : Int → JSNum
deriving DecidableEq

/-- Subtraction on JSNum; any operation involving NaN yields NaN. -/
def jsSub : JSNum → JSNum → JSNum
  | JSNum.int a, JSNum.int b => JSNum.int (a - b)
  | _, _ => JSNum.nan

/-- Model of Math.abs restricted to JSNum; Math.abs(NaN) is NaN. -/
def jsAbs : JSNum → JSNum
  | JSNum.int a => JSNum.int a.natAbs
  | JSNum.nan => JSNum.nan

/-- Comparison `x < n` on a JSNum left operand; every comparison with NaN is false. -/
def jsLtNat : JSNum → Nat → Bool
  | JSNum.int a, b => decide (a < (b : Int))
  | JSNum.nan, _ => false

/-- Template-literal rendering of a JSNum. -/
def jsNumToString : JSNum → String
  | JSNum.nan => "NaN"
  | JSNum.int a => toString a

/-- Digits-only decimal reading used by jsUnaryPlus. -/
def parseDecimalDigits : List Char → Option Nat
  | [] => none
  | cs =>
    if cs.all Char.isDigit then
      some (cs.foldl (fun n c => n * 10 + (c.toNat - 48)) 0)
    else
      none

/-- Whitespace trimming applied by the JavaScript ToNumber coercion,
written structurally on the character list. -/
def jsTrim (s : String) : List Char :=
  ((s.data.dropWhile Char.isWhitespace).reverse.dropWhile Char.isWhitespace).reverse

/-- Model of the unary plus coercion `+header` applied to a possibly missing
header string: a missing value (undefined) coerces to NaN, an
all-whitespace string to 0, an optionally signed decimal integer to that
integer, and every other string to NaN.  Fractional, hexadecimal and
exponent forms of the JavaScript ToNumber grammar never arise for the
second-granularity timestamps this header carries and are mapped to NaN. -/
def jsUnaryPlus : Option String → JSNum
  | none => JSNum.nan
  | some s =>
    match jsTrim s with
    | [] => JSNum.int 0
    | '-' :: rest =>
      match parseDecimalDigits rest with
      | some n => JSNum.int (-(n : Int))
      | none => JSNum.nan
    | '+' :: rest =>
      match parseDecimalDigits rest with
      | some n => JSNum.int n
      | none => JSNum.nan
    | cs =>
      match parseDecimalDigits cs with
      | some n => JSNum.int n
      | none => JSNum.nan

/-- Truthiness of a `string | undefined` value: undefined and the empty
string are falsy, every other string is truthy. -/
def jsTruthy : Option String → Bool
  | none => false
  | some s => s != ""

/-- Model of `a || b` on `string | undefined` values. -/
def jsOr (a b : Option String) : Option String :=
  if jsTruthy a then a else b

/-- Worker of jsSplit, accumulating the current field in reverse. -/
def jsSplitAux (sep : Char) : List Char → List Char → List String
  | [], acc => [String.mk acc.reverse]
  | c :: cs, acc =>
    if c == sep then String.mk acc.reverse :: jsSplitAux sep cs []
    else jsSplitAux sep cs (c :: acc)

/-- Model of String.prototype.split with a single-character separator:
every occurrence of the separator starts a new field, and an empty input
yields one empty field. -/
def jsSplit (s : String) (sep : Char) : List String :=
  jsSplitAux sep s.data []

/-- Lowercasing as used by toLowerCase, written structurally; the ASCII
range is all this code base compares. -/
def lowerString (s : String) : String :=
  String.mk (s.data.map Char.toLower)

/-- Template-literal rendering of a `string | undefined` value; undefined
renders as the text "undefined". -/
def optStr : Option String → String
  | none => "undefined"
  | some s => s

/-! ## Data model (types from handler.ts and services/dynamo) -/

/-- Status payload `\x7b text, emoji \x7d`; both fields can hold undefined at
runtime because they are filled from parsed arguments. -/
structure SlackStatus where
  text : Option String
  emoji : Option String
deriving DecidableEq

/-- One mapping from calendar-event text to the status to display. -/
structure StatusMapping where
  calendarText : String
  slackStatus : SlackStatus
deriving DecidableEq

/-- Per-user settings record loaded from the settings store. -/
structure UserSettings where
  slackToken : Option String
  statusMappings : Option (List StatusMapping)
  defaultStatus : Option SlackStatus
deriving DecidableEq

/-- Fields of the inner Slack event read by the router (type SlackEvent). -/
structure SlackEvent where
  type : String
  subtype : Option String
  text : String
  user : Option String
  channel : String
  channel_type : String
deriving DecidableEq

/-- Result of getUserProfile. -/
structure UserProfile where
  email : String
deriving DecidableEq

/-- Shape of the JSON.parse result as consumed by the handler: the `type`
and `challenge` fields and, for event callbacks, the inner event. -/
structure ParsedBody where
  type : Option String
  challenge : Option String
  event : Option SlackEvent
deriving DecidableEq

/-- Response body values produced by the router (EMPTY_RESPONSE_BODY or the
url_verification challenge echo). -/
inductive SlackResponse where
  | empty
  | challengeOf (challenge : Option String)
deriving DecidableEq

/-- Body of the final HTTP response. -/
inductive ResponseBody where
  | invalidRequest
  | payload (r : SlackResponse)
deriving DecidableEq

/-- Final HTTP response of the handler. -/
structure HttpResponse where
  statusCode : Nat
  body : ResponseBody
deriving DecidableEq

/-- Inbound API-gateway request: headers and the raw body string. -/
structure ApiGatewayEvent where
  headers : List (String × String)
  body : String
deriving DecidableEq

/-- Header lookup, modelling property access on the headers object. -/
def lookupHeader (headers : List (String × String)) (name : String) : Option String :=
  (headers.find? (fun h => h.1 == name)).map (fun h => h.2)

/-! ## Exceptions, effects and the computation type -/

/-- Exceptions the embedded code can raise or receive from collaborators. -/
inductive JsError where
  | invalidBufferArg
  | bufferLengthMismatch
  | destructureUndefined
  | jsonInvalid (msg : String)
  | collabFailure (msg : String)
deriving DecidableEq

/-- Observable collaborator calls, recorded in order. -/
inductive Effect where
  | secretFetch (key : String)
  | profileFetch (userId : String)
  | settingsFetch (emails : List String)
  | persistStatusMappings
  | persistDefaultStatus
  | messageSend (text channel : String)
deriving DecidableEq

/-- Decidable equality for Except results, used to evaluate the embedding
on concrete inputs. -/
instance {ε α : Type} [DecidableEq ε] [DecidableEq α] : DecidableEq (Except ε α) :=
  fun a b =>
    match a, b with
    | Except.ok x, Except.ok y =>
      if h : x = y then isTrue (by rw [h]) else isFalse (by simp [h])
    | Except.error x, Except.error y =>
      if h : x = y then isTrue (by rw [h]) else isFalse (by simp [h])
    | Except.ok _, Except.error _ => isFalse (by simp)
    | Except.error _, Except.ok _ => isFalse (by simp)

/-- Computation type of the embedding: an Except result paired with the
ordered trace of collaborator calls performed. -/
abbrev EffM (α : Type) : Type := Except JsError α × List Effect

instance : Monad EffM where
  pure a := (Except.ok a, [])
  bind x f :=
    match x with
    | (Except.error e, t) => (Except.error e, t)
    | (Except.ok a, t) =>
      match f a with
      | (r, t2) => (r, t ++ t2)

/-- Raise an exception. -/
def throwEff {α : Type} (e : JsError) : EffM α := (Except.error e, [])

/-- Perform one collaborator call: record the effect and adopt the result
the environment assigns to it (ok or thrown). -/
def callExternal {α : Type} (eff : Effect) (result : Except JsError α) : EffM α :=
  (result, [eff])

/-- Lift a pure fallible step (no collaborator call) into EffM. -/
def liftExcept {α : Type} (r : Except JsError α) : EffM α := (r, [])

/-- Environment of external collaborators, the clock, and the JavaScript
built-ins (crypto, JSON.parse) the handler calls. -/
structure Env where
  now : Int
  jsonParse : String → Except JsError ParsedBody
  getSlackSecretWithKey : String → Except JsError String
  hmacSha256Hex : String → String → String
  getUserProfile : String → String → Except JsError (Option UserProfile)
  postMessage : String → String → String → Except JsError Unit
  getSettingsForUsers : List String → Except JsError (List UserSettings)
  upsertStatusMappings : UserSettings → Except JsError UserSettings
  upsertDefaultStatus : UserSettings → Except JsError UserSettings
  slackInstallUrl : String

/-! ## Request authenticator -/

/-- Constant FIVE_MIN_IN_SEC. -/
def FIVE_MIN_IN_SEC : Nat := 300

/-- Model of Buffer.from(x, "utf8"): constructing a buffer from undefined
throws a TypeError. -/
def bufferFrom : Option String → Except JsError String
  | some s => Except.ok s
  | none => Except.error JsError.invalidBufferArg

/-- Model of crypto.timingSafeEqual on utf8 buffers: throws a RangeError
when the byte lengths differ, otherwise decides byte equality (the
constant-time execution property itself is outside a value-level model). -/
def timingSafeEqual (a b : String) : Except JsError Bool :=
  if a.utf8ByteSize = b.utf8ByteSize then
    Except.ok (a == b)
  else
    Except.error JsError.bufferLengthMismatch

/-- Embedding of validateTimestamp (handler.ts lines 45 to 48): the current
time minus the request timestamp, absolute value, compared against 300. -/
def validateTimestamp (now : Int) (slackRequestTimestampInSec : JSNum) : Bool :=
  jsLtNat (jsAbs (jsSub (JSNum.int now) slackRequestTimestampInSec)) FIVE_MIN_IN_SEC

/-- Embedding of validateSlackRequest (handler.ts lines 50 to 65): coerce
the timestamp header with unary plus, reject on a stale or NaN timestamp,
fetch the signing secret, split the signature header at "=" into version
and hash, compute the hex HMAC digest of "version:timestamp:body", and
compare with timingSafeEqual.  Accessing .split on a missing header and
Buffer.from on a missing right-hand hash throw. -/
def validateSlackRequest (env : Env) (event : ApiGatewayEvent) : EffM Bool :=
  let requestTimestamp : JSNum :=
    jsUnaryPlus (lookupHeader event.headers "X-Slack-Request-Timestamp")
  if !(validateTimestamp env.now requestTimestamp) then
    pure false
  else do
    let signingSecret ← callExternal (Effect.secretFetch "signing-secret")
      (env.getSlackSecretWithKey "signing-secret")
    match lookupHeader event.headers "X-Slack-Signature" with
    | none => throwEff JsError.destructureUndefined
    | some requestSignature =>
      let parts := jsSplit requestSignature '='
      let version := parts.headD ""
      let slackHash : Option String := parts[1]?
      let calculatedSignature :=
        env.hmacSha256Hex signingSecret
          (version ++ ":" ++ jsNumToString requestTimestamp ++ ":" ++ event.body)
      do
        let hashStr ← liftExcept (bufferFrom slackHash)
        liftExcept (timingSafeEqual calculatedSignature hashStr)

/-! ## Command tokenizer

Embedding of the regex scan on handler.ts line 204:
`command.match(/[\w]+=[""][^""]+[""]|[^ """]+/g) || []`.
Every quote character in that literal is the plain ASCII double quote, so
the first alternative is word-characters, then `=`, then a double quote,
then one or more non-quote characters, then a closing double quote; the
second alternative is a maximal run of characters that are neither a
space nor a double quote.  Neither alternative contains a backtracking
ambiguity (no quantified subpattern can consume the character required
next), so matching at a position is deterministic; the global scan takes
the leftmost match, preferring the first alternative, and on failure
advances one character. -/

/-- Word character of the regex class `[\w]` (ASCII letters, digits, underscore). -/
def isWordChar (c : Char) : Bool :=
  c.isAlpha || c.isDigit || c == '_'

/-- Attempt the first regex alternative at the start of the character list,
returning the matched characters and the remainder. -/
def matchQuotedArg (cs : List Char) : Option (List Char × List Char) :=
  match cs.span isWordChar with
  | (word, r1) =>
    if word.isEmpty then none
    else
      match r1 with
      | '=' :: '"' :: r2 =>
        (match r2.span (fun c => c != '"') with
         | (inner, r3) =>
           if inner.isEmpty then none
           else
             match r3 with
             | '"' :: r4 => some (word ++ '=' :: '"' :: (inner ++ ['"']), r4)
             | _ => none)
      | _ => none

/-- Attempt the second regex alternative (a maximal nonempty run of
non-space, non-quote characters) at the start of the character list. -/
def matchBareToken (cs : List Char) : Option (List Char × List Char) :=
  match cs.span (fun c => c != ' ' && c != '"') with
  | (tok, rest) => if tok.isEmpty then none else some (tok, rest)

/-- Global regex scan.  The fuel argument only bounds the iteration count;
every step consumes at least one character, so fuel equal to the input
length never runs out. -/
def tokenizeAux : Nat → List Char → List String
  | 0, _ => []
  | _, [] => []
  | fuel + 1, c :: cs =>
    match matchQuotedArg (c :: cs) with
    | some (tok, rest) => String.mk tok :: tokenizeAux fuel rest
    | none =>
      match matchBareToken (c :: cs) with
      | some (tok, rest) => String.mk tok :: tokenizeAux fuel rest
      | none => tokenizeAux fuel cs

/-- Tokenization of the free-text command (handler.ts line 204). -/
def tokenize (text : String) : List String :=
  tokenizeAux text.data.length text.data

/-! ## Status-mapping store operations -/

/-- Embedding of serializeStatusMappings (handler.ts lines 67 to 79): one
rendered line per mapping; a missing statusMappings field yields the
empty list (an empty array is truthy, so it is mapped as usual). -/
def serializeStatusMappings (userSettings : UserSettings) : List String :=
  match userSettings.statusMappings with
  | some statusMappings =>
    statusMappings.map (fun m =>
      "\n" ++ optStr m.slackStatus.emoji ++ " `" ++ m.calendarText ++ "` " ++
        (if jsTruthy m.slackStatus.text then
          "uses status `" ++ optStr m.slackStatus.text ++ "`"
        else ""))
  | none => []

/-- Embedding of handleShow (handler.ts lines 81 to 88).  A template
literal interpolating an array joins its elements with commas. -/
def handleShow (_env : Env) (userSettings : UserSettings) (_args : List String) :
    EffM (String × UserSettings) :=
  let serialized := serializeStatusMappings userSettings
  if serialized.length != 0 then
    pure ("Here\x27s what I\x27ve got for you:" ++ String.intercalate "," serialized,
      userSettings)
  else
    pure ("You don\x27t have any status mappings yet. Try `set`", userSettings)

/-- Parsed-argument record of handleSet with its initial defaults
(every field starts as the defined empty string). -/
structure SetArgs where
  meeting : Option String
  message : Option String
  emoji : Option String
deriving DecidableEq

/-- Loop body of the argument loop of handleSet (handler.ts lines 92 to 97):
split the argument at "=", and when the left side is a known key store
the right side (which is undefined when the argument has no "="). -/
def setArgsStep (d : SetArgs) (arg : String) : SetArgs :=
  let parts := jsSplit arg '='
  let key := parts.headD ""
  let value := parts[1]?
  if key == "meeting" then { d with meeting := value }
  else if key == "message" then { d with message := value }
  else if key == "emoji" then { d with emoji := value }
  else d

/-- Embedding of the argument loop of handleSet (handler.ts lines 91 to 97). -/
def parseSetArgs (args : List String) : SetArgs :=
  args.foldl setArgsStep { meeting := some "", message := some "", emoji := some "" }

/-- Functional rendering of the mutation of handleSet (handler.ts lines 107
to 123): find the first mapping whose calendarText matches the meeting
case-insensitively; if found, replace its slackStatus in place; otherwise
push a new mapping at the end. -/
def setMapping (mappings : List StatusMapping) (meeting : String)
    (slackStatus : SlackStatus) : List StatusMapping :=
  match mappings with
  | [] => [{ calendarText := meeting, slackStatus := slackStatus }]
  | m :: rest =>
    if lowerString m.calendarText == lowerString meeting then
      { m with slackStatus := slackStatus } :: rest
    else
      m :: setMapping rest meeting slackStatus

/-- Embedding of handleSet (handler.ts lines 90 to 129): parse arguments,
return the guidance string when meeting is falsy, otherwise upsert the
mapping (initialising a missing statusMappings field to the empty array),
persist, and render the confirmation from the persisted settings.  The
returned UserSettings is the mutated settings object handed to
persistence. -/
def handleSet (env : Env) (userSettings : UserSettings) (args : List String) :
    EffM (String × UserSettings) :=
  let defaults := parseSetArgs args
  if !(jsTruthy defaults.meeting) then
    pure ("You must specify a meeting using `meeting=\"My Meeting\"`.", userSettings)
  else
    let meeting := defaults.meeting.getD ""
    let mappings0 := userSettings.statusMappings.getD []
    let slackStatus : SlackStatus :=
      { text := jsOr defaults.message defaults.meeting, emoji := defaults.emoji }
    let settings1 : UserSettings :=
      { userSettings with statusMappings := some (setMapping mappings0 meeting slackStatus) }
    do
      let updated ← callExternal Effect.persistStatusMappings
        (env.upsertStatusMappings settings1)
      pure ("Here\x27s what I got: " ++
        String.intercalate "," (serializeStatusMappings updated), settings1)

/-- Embedding of handleRemove (handler.ts lines 131 to 134): the handler is
a stub that performs no mutation and returns a fixed string. -/
def handleRemove (_env : Env) (userSettings : UserSettings) (_args : List String) :
    EffM (String × UserSettings) :=
  pure ("Not implemented", userSettings)

/-- Parsed-argument record of handleSetDefault with its initial defaults. -/
structure DefaultArgs where
  message : Option String
  emoji : Option String
deriving DecidableEq

/-- Embedding of the argument loop of handleSetDefault (handler.ts lines
137 to 143). -/
def parseDefaultArgs (args : List String) : DefaultArgs :=
  args.foldl
    (fun d arg =>
      let parts := jsSplit arg '='
      let key := parts.headD ""
      let value := parts[1]?
      if key == "message" then { d with message := value }
      else if key == "emoji" then { d with emoji := value }
      else d)
    { message := some "", emoji := some "" }

/-- Embedding of handleSetDefault (handler.ts lines 136 to 155). -/
def handleSetDefault (env : Env) (userSettings : UserSettings) (args : List String) :
    EffM (String × UserSettings) :=
  let defaults := parseDefaultArgs args
  if !(jsTruthy defaults.message) && !(jsTruthy defaults.emoji) then
    pure ("Please set a default `message` and/or `emoji`.", userSettings)
  else
    let settings1 : UserSettings :=
      { userSettings with
        defaultStatus := some { text := defaults.message, emoji := defaults.emoji } }
    do
      let _ ← callExternal Effect.persistDefaultStatus (env.upsertDefaultStatus settings1)
      pure ("Your default status is " ++ optStr defaults.emoji ++ " `" ++
        optStr defaults.message ++ "`.", settings1)

/-- Embedding of handleRemoveDefault (handler.ts lines 157 to 161): clear
the default status and persist. -/
def handleRemoveDefault (env : Env) (userSettings : UserSettings) (_args : List String) :
    EffM (String × UserSettings) :=
  let settings1 : UserSettings := { userSettings with defaultStatus := none }
  do
    let _ ← callExternal Effect.persistDefaultStatus (env.upsertDefaultStatus settings1)
    pure ("Your default status has been removed.", settings1)

/-- Embedding of commandHandlerMap (handler.ts lines 163 to 169) together
with the membership test `subcommand in commandHandlerMap`. -/
def commandHandlerFor :
    String → Option (Env → UserSettings → List String → EffM (String × UserSettings))
  | "show" => some handleShow
  | "set" => some handleSet
  | "remove" => some handleRemove
  | "set-default" => some handleSetDefault
  | "remove-default" => some handleRemoveDefault
  | _ => none

/-! ## Event router -/

/-- Reply used when the user has not authorized the integration. -/
def installPromptText (env : Env) : String :=
  "Hello :wave:\n\nYou need to authorize me before we can do anything else: " ++
    env.slackInstallUrl

/-- Help reply for an unrecognized subcommand. -/
def helpMessage : String :=
  ":shrug: Maybe try one of these:\n  - `help`\n  - `show`\n  - `set`\n  - `set-default`\n  - `remove`\n  - `remove-default`"

/-- Embedding of the local sendMessage closure (handler.ts lines 185 to
188): post the message and return the empty response body. -/
def sendMessage (env : Env) (botToken channel message : String) : EffM SlackResponse := do
  let _ ← callExternal (Effect.messageSend message channel)
    (env.postMessage botToken message channel)
  pure SlackResponse.empty

/-- Embedding of handleSlackEventCallback (handler.ts lines 171 to 220).
The parameter is the `event` field of the callback payload; destructuring
a missing field throws.  Non-message or non-im events, bot messages and
events without a truthy user are acknowledged with the empty body and no
collaborator call.  Otherwise the bot token, the user profile and the
settings are fetched in order, the message text is tokenized, and the
dispatched handler reply (or a fallback reply) is sent back. -/
def handleSlackEventCallback (env : Env) (callbackEvent : Option SlackEvent) :
    EffM SlackResponse :=
  match callbackEvent with
  | none => throwEff JsError.destructureUndefined
  | some ev =>
    if ev.type != "message" || ev.channel_type != "im" then
      pure SlackResponse.empty
    else if ev.subtype == some "bot_message" || !(jsTruthy ev.user) then
      pure SlackResponse.empty
    else do
      let botToken ← callExternal (Effect.secretFetch "bot-token")
        (env.getSlackSecretWithKey "bot-token")
      let userProfile ← callExternal (Effect.profileFetch (ev.user.getD ""))
        (env.getUserProfile botToken (ev.user.getD ""))
      match userProfile with
      | none =>
        sendMessage env botToken ev.channel
          "Something went wrong fetching your user profile. Maybe try again?"
      | some profile => do
        let userSettingsList ← callExternal (Effect.settingsFetch [profile.email])
          (env.getSettingsForUsers [profile.email])
        match userSettingsList with
        | [] => sendMessage env botToken ev.channel (installPromptText env)
        | userSettings0 :: _ =>
          if !(jsTruthy userSettings0.slackToken) then
            sendMessage env botToken ev.channel (installPromptText env)
          else
            let tokens := tokenize ev.text
            match tokens.head?.bind commandHandlerFor with
            | some h => do
              let result ← h env userSettings0 tokens.tail
              sendMessage env botToken ev.channel result.1
            | none => sendMessage env botToken ev.channel helpMessage

/-- Embedding of the exported handler (handler.ts lines 222 to 252):
JSON.parse the raw body first (a parse failure throws out of the handler
before authentication), then authenticate (failure yields the 400
response), then route on the payload type and wrap the routed response
body in a 200 response.  No exception raised along the way is caught. -/
def handler (env : Env) (event : ApiGatewayEvent) : EffM HttpResponse := do
  let body ← liftExcept (env.jsonParse event.body)
  let valid ← validateSlackRequest env event
  if !valid then
    pure { statusCode := 400, body := ResponseBody.invalidRequest }
  else do
    let responseBody ←
      match body.type with
      | some "url_verification" => pure (SlackResponse.challengeOf body.challenge)
      | some "event_callback" => handleSlackEventCallback env body.event
      | _ => pure SlackResponse.empty
    pure { statusCode := 200, body := ResponseBody.payload responseBody }

/-! ## Derived notions and concrete fixtures -/

/-- Case-insensitive comparison key of a mapping, as computed on both sides
of the find predicate in handleSet. -/
def lowerKey (m : StatusMapping) : String :=
  lowerString m.calendarText

/-- Sample status stored under the calendar text "Standup". -/
def sampleStatus : SlackStatus := { text := some "Standup", emoji := some ":x:" }

/-- Replacement status used when updating the "Standup" mapping. -/
def sampleStatus2 : SlackStatus := { text := some "standup", emoji := some ":calendar:" }

/-- Sample authorized settings holding one mapping. -/
def sampleSettings : UserSettings :=
  { slackToken := some "tok"
    statusMappings := some [{ calendarText := "Standup", slackStatus := sampleStatus }]
    defaultStatus := none }

/-- Sample direct-message event carrying the text "show". -/
def msgEvent : SlackEvent :=
  { type := "message", subtype := none, text := "show", user := some "U1"
    channel := "C1", channel_type := "im" }

/-- Sample bot-originated direct-message event. -/
def botEvent : SlackEvent :=
  { type := "message", subtype := some "bot_message", text := "hi", user := some "U1"
    channel := "C1", channel_type := "im" }

/-- Sample event_callback payload wrapping msgEvent. -/
def callbackBody : ParsedBody :=
  { type := some "event_callback", challenge := none, event := some msgEvent }

/-- Concrete environment: the clock reads 1000, JSON bodies parse to
callbackBody, the signing secret resolves while the bot-token fetch
throws, and every HMAC digest is the two-byte string "aa". -/
def baseEnv : Env :=
  { now := 1000
    jsonParse := fun _ => Except.ok callbackBody
    getSlackSecretWithKey := fun key =>
      if key == "signing-secret" then Except.ok "sek"
      else Except.error (JsError.collabFailure "bot-token fetch failed")
    hmacSha256Hex := fun _ _ => "aa"
    getUserProfile := fun _ _ => Except.ok (some { email := "u@example.com" })
    postMessage := fun _ _ _ => Except.ok ()
    getSettingsForUsers := fun _ => Except.ok []
    upsertStatusMappings := fun s => Except.ok s
    upsertDefaultStatus := fun s => Except.ok s
    slackInstallUrl := "https://example.com/install" }

/-- Concrete environment whose JSON.parse throws. -/
def badJsonEnv : Env :=
  { baseEnv with jsonParse := fun _ => Except.error (JsError.jsonInvalid "Unexpected token") }

/-- Request with a fresh timestamp and a signature header holding no "=". -/
def freshNoEqEvent : ApiGatewayEvent :=
  { headers := [("X-Slack-Request-Timestamp", "1000"), ("X-Slack-Signature", "v0abc")]
    body := "b" }

/-- Request with a fresh timestamp and a signature that baseEnv accepts. -/
def freshSignedEvent : ApiGatewayEvent :=
  { headers := [("X-Slack-Request-Timestamp", "1000"), ("X-Slack-Signature", "v0=aa")]
    body := "b" }

/-- Request whose timestamp is 900 seconds behind the baseEnv clock but
whose signature baseEnv would accept. -/
def staleSignedEvent : ApiGatewayEvent :=
  { headers := [("X-Slack-Request-Timestamp", "100"), ("X-Slack-Signature", "v0=aa")]
    body := "b" }

/-- Request carrying no timestamp header at all. -/
def noTimestampEvent : ApiGatewayEvent :=
  { headers := [("X-Slack-Signature", "v0=aa")], body := "b" }

/-! ## Helper lemmas -/

/-- Reduction of an EffM bind on a successful step. -/
theorem EffM_bind_ok {α β : Type} (a : α) (t : List Effect) (f : α → EffM β) :
    @Bind.bind EffM _ α β (Except.ok a, t) f = ((f a).1, t ++ (f a).2) := by
  show ((f a).1, t ++ (f a).2) = ((f a).1, t ++ (f a).2)
  rfl

/-- Reduction of an EffM bind on a thrown step. -/
theorem EffM_bind_error {α β : Type} (e : JsError) (t : List Effect) (f : α → EffM β) :
    @Bind.bind EffM _ α β (Except.error e, t) f = (Except.error e, t) := rfl

/-- Reduction of an EffM pure value. -/
theorem EffM_pure {α : Type} (a : α) :
    (Pure.pure a : EffM α) = (Except.ok a, []) := rfl

/-! ## C6: stale timestamps are rejected before any signature work -/

/-- C6.  For every environment and request whose timestamp header coerces
to an integer t with the clock at least 300 seconds away from t,
validateSlackRequest returns false with no collaborator call, whatever
the signature header and the HMAC function are — in particular also when
the request carries the correct signature for that timestamp and body. -/
theorem stale_timestamp_rejected (env : Env) (event : ApiGatewayEvent) (t : Int)
    (hts : jsUnaryPlus (lookupHeader event.headers "X-Slack-Request-Timestamp") = JSNum.int t)
    (hstale : 300 ≤ (env.now - t).natAbs) :
    validateSlackRequest env event = (Except.ok false, []) := by
  have hvt : validateTimestamp env.now
      (jsUnaryPlus (lookupHeader event.headers "X-Slack-Request-Timestamp")) = false := by
    rw [hts]
    simp only [validateTimestamp, jsSub, jsAbs, jsLtNat, FIVE_MIN_IN_SEC,
      decide_eq_false_iff_not]
    omega
  simp [validateSlackRequest, hvt, EffM_pure]

/-- Witness for C6 at the concrete stale request. -/
theorem stale_timestamp_rejected_witness :
    jsUnaryPlus (lookupHeader staleSignedEvent.headers "X-Slack-Request-Timestamp")
        = JSNum.int 100
    ∧ 300 ≤ (baseEnv.now - 100).natAbs
    ∧ validateSlackRequest baseEnv staleSignedEvent = (Except.ok false, []) :=
  ⟨by decide, by decide,
    stale_timestamp_rejected baseEnv staleSignedEvent 100 (by decide) (by decide)⟩

/-! ## C7: a missing or unparsable timestamp fails closed -/

/-- C7.  For every environment and request whose timestamp header is
missing or fails to coerce to a number (the coercion yields NaN),
validateSlackRequest returns false with no collaborator call; it never
deems such a request authentic. -/
theorem nan_timestamp_rejected (env : Env) (event : ApiGatewayEvent)
    (hts : jsUnaryPlus (lookupHeader event.headers "X-Slack-Request-Timestamp") = JSNum.nan) :
    validateSlackRequest env event = (Except.ok false, []) := by
  have hvt : validateTimestamp env.now
      (jsUnaryPlus (lookupHeader event.headers "X-Slack-Request-Timestamp")) = false := by
    rw [hts]
    rfl
  simp [validateSlackRequest, hvt, EffM_pure]

/-- Witness for C7 at the concrete request without a timestamp header. -/
theorem nan_timestamp_rejected_witness :
    jsUnaryPlus (lookupHeader noTimestampEvent.headers "X-Slack-Request-Timestamp")
        = JSNum.nan
    ∧ validateSlackRequest baseEnv noTimestampEvent = (Except.ok false, []) :=
  ⟨by decide, nan_timestamp_rejected baseEnv noTimestampEvent (by decide)⟩

/-! ## C9: bot-originated and user-less events are ignored without calls -/

/-- C9.  For every environment and event_callback whose inner event has
subtype bot_message or carries no truthy user identifier,
handleSlackEventCallback returns the empty response body and performs no
collaborator call at all (no secret fetch, no profile fetch, no settings
fetch, no persistence, no message send). -/
theorem bot_or_userless_event_ignored (env : Env) (ev : SlackEvent)
    (h : ev.subtype = some "bot_message" ∨ jsTruthy ev.user = false) :
    handleSlackEventCallback env (some ev) = (Except.ok SlackResponse.empty, []) := by
  unfold handleSlackEventCallback
  by_cases h1 : (ev.type != "message" || ev.channel_type != "im") = true
  · simp [h1, EffM_pure]
  · have h2 : (ev.subtype == some "bot_message" || !(jsTruthy ev.user)) = true := by
      rcases h with h | h
      · simp [h]
      · simp [h]
    simp [h1, h2, EffM_pure]

/-- Witness for C9 at the concrete bot-originated event. -/
theorem bot_or_userless_event_ignored_witness :
    botEvent.subtype = some "bot_message"
    ∧ handleSlackEventCallback baseEnv (some botEvent) = (Except.ok SlackResponse.empty, []) :=
  ⟨by decide, bot_or_userless_event_ignored baseEnv botEvent (Or.inl (by decide))⟩

/-! ## C10: an unparsable body throws before authentication -/

/-- C10.  For every environment and request whose raw body JSON.parse
rejects, the handler propagates that exception with an empty collaborator
trace: authentication never runs (no secret fetch appears) and the
request never receives the 400 invalid-request response, whatever its
signature and timestamp headers hold. -/
theorem invalid_json_throws_before_auth (env : Env) (event : ApiGatewayEvent) (e : JsError)
    (hparse : env.jsonParse event.body = Except.error e) :
    handler env event = (Except.error e, []) := by
  unfold handler
  rw [hparse]
  rfl

/-- Witness for C10 at the concrete environment whose JSON.parse throws. -/
theorem invalid_json_throws_before_auth_witness :
    badJsonEnv.jsonParse freshSignedEvent.body
        = Except.error (JsError.jsonInvalid "Unexpected token")
    ∧ handler badJsonEnv freshSignedEvent
        = (Except.error (JsError.jsonInvalid "Unexpected token"), []) :=
  ⟨by decide,
    invalid_json_throws_before_auth badJsonEnv freshSignedEvent
      (JsError.jsonInvalid "Unexpected token") (by decide)⟩

/-! ## C1: a signature header without "=" makes the authenticator throw -/

/-- Counterexample to C1.  At the concrete fresh request whose signature
header "v0abc" holds no "=", validateSlackRequest does not return false:
it throws the TypeError of building a buffer from the undefined
right-hand hash. -/
theorem signature_without_equals_throws_cex :
    lookupHeader freshNoEqEvent.headers "X-Slack-Signature" = some "v0abc"
    ∧ (jsSplit "v0abc" '=')[1]? = none
    ∧ validateSlackRequest baseEnv freshNoEqEvent
        = (Except.error JsError.invalidBufferArg, [Effect.secretFetch "signing-secret"])
    ∧ (validateSlackRequest baseEnv freshNoEqEvent).1 ≠ Except.ok false := by
  exact ⟨by decide, by decide, by decide, by decide⟩

/-- Amended C1.  For every request whose signature header splits at "=" to
no right-hand hash, whose timestamp is fresh and whose secret fetch
succeeds, validateSlackRequest raises the buffer-construction TypeError
instead of returning false.  (When the timestamp is stale or NaN it
returns false first, and a failing secret fetch propagates its own
exception.) -/
theorem signature_without_equals_throws (env : Env) (event : ApiGatewayEvent)
    (sig : String) (t : Int) (secret : String)
    (hsig : lookupHeader event.headers "X-Slack-Signature" = some sig)
    (hnohash : (jsSplit sig '=')[1]? = none)
    (hts : jsUnaryPlus (lookupHeader event.headers "X-Slack-Request-Timestamp") = JSNum.int t)
    (hfresh : (env.now - t).natAbs < 300)
    (hsecret : env.getSlackSecretWithKey "signing-secret" = Except.ok secret) :
    validateSlackRequest env event
      = (Except.error JsError.invalidBufferArg, [Effect.secretFetch "signing-secret"]) := by
  have hvt : validateTimestamp env.now
      (jsUnaryPlus (lookupHeader event.headers "X-Slack-Request-Timestamp")) = true := by
    rw [hts]
    simp only [validateTimestamp, jsSub, jsAbs, jsLtNat, FIVE_MIN_IN_SEC, decide_eq_true_eq]
    omega
  simp [validateSlackRequest, hvt, hsig, hnohash, hsecret, callExternal,
    EffM_bind_ok, EffM_bind_error, liftExcept, bufferFrom, throwEff]

/-- Witness for the amended C1 at the concrete malformed request. -/
theorem signature_without_equals_throws_witness :
    lookupHeader freshNoEqEvent.headers "X-Slack-Signature" = some "v0abc"
    ∧ (jsSplit "v0abc" '=')[1]? = none
    ∧ jsUnaryPlus (lookupHeader freshNoEqEvent.headers "X-Slack-Request-Timestamp")
        = JSNum.int 1000
    ∧ (baseEnv.now - 1000).natAbs < 300
    ∧ baseEnv.getSlackSecretWithKey "signing-secret" = Except.ok "sek"
    ∧ validateSlackRequest baseEnv freshNoEqEvent
        = (Except.error JsError.invalidBufferArg, [Effect.secretFetch "signing-secret"]) :=
  ⟨by decide, by decide, by decide, by decide, by decide,
    signature_without_equals_throws baseEnv freshNoEqEvent "v0abc" 1000 "sek"
      (by decide) (by decide) (by decide) (by decide) (by decide)⟩

/-! ## C2: the handler has no top-level exception handling -/

/-- Counterexample to C2.  At a concrete authentic event_callback request
whose bot-token fetch throws, the handler propagates the exception: it
produces no HTTP response value at all, in particular not a 200
acknowledgment. -/
theorem handler_uncaught_exception_cex :
    handler baseEnv freshSignedEvent
      = (Except.error (JsError.collabFailure "bot-token fetch failed"),
          [Effect.secretFetch "signing-secret", Effect.secretFetch "bot-token"]) := by
  decide

/-- Amended C2.  The handler catches nothing: for every environment and
request whose body parses, whose authentication succeeds and whose
event_callback processing raises an exception, the handler propagates
that exception (the webhook surfaces an error instead of an HTTP 200
JSON acknowledgment); a well-formed 200 response is produced only on the
exception-free paths. -/
theorem handler_propagates_event_errors (env : Env) (event : ApiGatewayEvent)
    (body : ParsedBody) (e : JsError) (tr tr2 : List Effect)
    (hparse : env.jsonParse event.body = Except.ok body)
    (hvalid : validateSlackRequest env event = (Except.ok true, tr))
    (htype : body.type = some "event_callback")
    (hev : handleSlackEventCallback env body.event = (Except.error e, tr2)) :
    handler env event = (Except.error e, tr ++ tr2) := by
  unfold handler
  rw [hparse]
  show Bind.bind (validateSlackRequest env event) _ = _
  rw [hvalid, EffM_bind_ok]
  simp [htype, hev, EffM_bind_error]
  exact ⟨rfl, rfl⟩

/-- Witness for the amended C2 at the concrete failing collaborator. -/
theorem handler_propagates_event_errors_witness :
    baseEnv.jsonParse freshSignedEvent.body = Except.ok callbackBody
    ∧ validateSlackRequest baseEnv freshSignedEvent
        = (Except.ok true, [Effect.secretFetch "signing-secret"])
    ∧ callbackBody.type = some "event_callback"
    ∧ handleSlackEventCallback baseEnv callbackBody.event
        = (Except.error (JsError.collabFailure "bot-token fetch failed"),
            [Effect.secretFetch "bot-token"])
    ∧ handler baseEnv freshSignedEvent
        = (Except.error (JsError.collabFailure "bot-token fetch failed"),
            [Effect.secretFetch "signing-secret", Effect.secretFetch "bot-token"]) :=
  ⟨by decide, by decide, by decide, by decide,
    handler_propagates_event_errors baseEnv freshSignedEvent callbackBody
      (JsError.collabFailure "bot-token fetch failed")
      [Effect.secretFetch "signing-secret"] [Effect.secretFetch "bot-token"]
      (by decide) (by decide) (by decide) (by decide)⟩

/-! ## C3: the remove command is an unimplemented stub -/

/-- C3 evaluation at the failing input.  At settings holding a mapping
whose calendarText matches the requested meeting name, handleRemove
deletes nothing and returns the fixed string "Not implemented" instead of
a confirmation; the handler body is a stub marked TODO. -/
theorem remove_is_unimplemented_stub :
    handleRemove baseEnv sampleSettings ["meeting=Standup"]
      = (Except.ok ("Not implemented", sampleSettings), [])
    ∧ sampleSettings.statusMappings
      = some [{ calendarText := "Standup", slackStatus := sampleStatus }] := by
  exact ⟨rfl, rfl⟩

/-! ## C4: tokens keep their surrounding quotes -/

/-- Counterexample to C4.  Tokenizing the example message yields the
quoted argument with its double quotes still in place, not the unwrapped
form the claim states. -/
theorem tokenize_keeps_quotes_cex :
    tokenize "set meeting=\"Team Sync\" emoji=📅"
      = ["set", "meeting=\"Team Sync\"", "emoji=📅"]
    ∧ tokenize "set meeting=\"Team Sync\" emoji=📅"
      ≠ ["set", "meeting=Team Sync", "emoji=📅"] := by
  exact ⟨by decide, by decide⟩

/-- Amended C4.  Tokenizing the message yields subcommand "set" and the
argument list with the quoted value still wrapped in its double quotes:
the regex match includes the quote characters and nothing unwraps them. -/
theorem tokenize_set_example :
    (tokenize "set meeting=\"Team Sync\" emoji=📅").head? = some "set"
    ∧ (tokenize "set meeting=\"Team Sync\" emoji=📅").tail
      = ["meeting=\"Team Sync\"", "emoji=📅"] := by
  exact ⟨by decide, by decide⟩

/-! ## C8: set without a usable meeting argument mutates nothing -/

/-- Invariant of the handleSet argument loop: an argument list in which no
argument splits to the key "meeting" with a truthy value leaves the
meeting field of the accumulator falsy. -/
theorem setArgs_fold_meeting_falsy (args : List String) :
    ∀ d : SetArgs, jsTruthy d.meeting = false →
      (∀ arg ∈ args,
        ¬((jsSplit arg '=').headD "" = "meeting" ∧ jsTruthy (jsSplit arg '=')[1]? = true)) →
      jsTruthy (args.foldl setArgsStep d).meeting = false := by
  induction args with
  | nil => intro d hd _; simpa using hd
  | cons a args ih =>
    intro d hd h
    rw [List.foldl_cons]
    refine ih (setArgsStep d a) ?_ (fun arg hm => h arg (by simp [hm]))
    have hna := h a (by simp)
    rw [not_and] at hna
    simp only [List.headD] at hna
    simp only [setArgsStep, List.headD]
    split_ifs with h1 h2 h3
    · simpa using hna (by simpa using h1)
    · exact hd
    · exact hd
    · exact hd

/-- C8.  For every environment, settings and argument list containing no
"meeting=" argument with a non-empty value, handleSet returns the
guidance string, returns the settings unchanged, and performs no
collaborator call (in particular no persistence). -/
theorem set_without_meeting_is_noop (env : Env) (userSettings : UserSettings)
    (args : List String)
    (h : ∀ arg ∈ args,
      ¬((jsSplit arg '=').headD "" = "meeting" ∧ jsTruthy (jsSplit arg '=')[1]? = true)) :
    handleSet env userSettings args
      = (Except.ok ("You must specify a meeting using `meeting=\"My Meeting\"`.",
          userSettings), []) := by
  have hm : jsTruthy (parseSetArgs args).meeting = false :=
    setArgs_fold_meeting_falsy args _ (by decide) h
  simp [handleSet, hm, EffM_pure]

/-- Witness for C8 at a concrete argument list whose meeting argument has
an empty value. -/
theorem set_without_meeting_is_noop_witness :
    (∀ arg ∈ ["meeting=", "emoji=:x:"],
      ¬((jsSplit arg '=').headD "" = "meeting" ∧ jsTruthy (jsSplit arg '=')[1]? = true))
    ∧ handleSet baseEnv sampleSettings ["meeting=", "emoji=:x:"]
      = (Except.ok ("You must specify a meeting using `meeting=\"My Meeting\"`.",
          sampleSettings), []) :=
  ⟨by decide,
    set_without_meeting_is_noop baseEnv sampleSettings ["meeting=", "emoji=:x:"] (by decide)⟩


/-! ## C5: the set upsert keeps calendar texts case-insensitively unique -/

/-- Unfolding of the upsert at a cons cell whose head matches. -/
theorem setMapping_cons_match (m : StatusMapping) (rest : List StatusMapping)
    (meeting : String) (st : SlackStatus)
    (h : (lowerString m.calendarText == lowerString meeting) = true) :
    setMapping (m :: rest) meeting st
      = { calendarText := m.calendarText, slackStatus := st } :: rest := by
  simp [setMapping, h]

/-- Unfolding of the upsert at a cons cell whose head does not match. -/
theorem setMapping_cons_no_match (m : StatusMapping) (rest : List StatusMapping)
    (meeting : String) (st : SlackStatus)
    (h : (lowerString m.calendarText == lowerString meeting) = false) :
    setMapping (m :: rest) meeting st = m :: setMapping rest meeting st := by
  simp [setMapping, h]

/-- Keys present after an upsert either come from the original list or
equal the lowercased meeting name. -/
theorem setMapping_key_mem (meeting : String) (st : SlackStatus) :
    ∀ l : List StatusMapping, ∀ x : String,
      x ∈ (setMapping l meeting st).map lowerKey →
      x ∈ l.map lowerKey ∨ x = lowerString meeting := by
  intro l
  induction l with
  | nil =>
    intro x hx
    simp [setMapping, lowerKey] at hx
    exact Or.inr hx
  | cons m rest ih =>
    intro x hx
    by_cases h : (lowerString m.calendarText == lowerString meeting) = true
    · rw [setMapping_cons_match m rest meeting st h, List.map_cons, List.mem_cons] at hx
      rcases hx with hx | hx
      · refine Or.inl ?_
        rw [List.map_cons, List.mem_cons]
        exact Or.inl (by simpa [lowerKey] using hx)
      · refine Or.inl ?_
        rw [List.map_cons, List.mem_cons]
        exact Or.inr hx
    · rw [Bool.not_eq_true] at h
      rw [setMapping_cons_no_match m rest meeting st h, List.map_cons, List.mem_cons] at hx
      rcases hx with hx | hx
      · refine Or.inl ?_
        rw [List.map_cons, List.mem_cons]
        exact Or.inl hx
      · rcases ih x hx with h1 | h1
        · refine Or.inl ?_
          rw [List.map_cons, List.mem_cons]
          exact Or.inr h1
        · exact Or.inr h1

/-- The upsert of the set command preserves pairwise distinctness of the
lowercased keys. -/
theorem setMapping_preserves_nodup (meeting : String) (st : SlackStatus) :
    ∀ l : List StatusMapping, ((l.map lowerKey).Nodup) →
      ((setMapping l meeting st).map lowerKey).Nodup := by
  intro l
  induction l with
  | nil =>
    intro _
    simp [setMapping]
  | cons m rest ih =>
    intro hd
    rw [List.map_cons, List.nodup_cons] at hd
    obtain ⟨hnotin, hrest⟩ := hd
    by_cases h : (lowerString m.calendarText == lowerString meeting) = true
    · rw [setMapping_cons_match m rest meeting st h, List.map_cons, List.nodup_cons]
      exact ⟨by simpa [lowerKey] using hnotin, hrest⟩
    · rw [Bool.not_eq_true] at h
      rw [setMapping_cons_no_match m rest meeting st h, List.map_cons, List.nodup_cons]
      constructor
      · intro hmem
        rcases setMapping_key_mem meeting st rest (lowerKey m) hmem with h1 | h1
        · exact hnotin h1
        · rw [show lowerKey m = lowerString m.calendarText from rfl] at h1
          rw [h1] at h
          simp at h
      · exact ih hrest

/-- With no case-insensitive match present, the upsert appends exactly one
new mapping at the end and keeps every existing entry. -/
theorem setMapping_appends_when_no_match (meeting : String) (st : SlackStatus) :
    ∀ l : List StatusMapping, (∀ m ∈ l, lowerKey m ≠ lowerString meeting) →
      setMapping l meeting st = l ++ [{ calendarText := meeting, slackStatus := st }] := by
  intro l
  induction l with
  | nil =>
    intro _
    rfl
  | cons m rest ih =>
    intro h
    have hm : (lowerString m.calendarText == lowerString meeting) = false := by
      have := h m (by simp)
      simpa [lowerKey] using this
    rw [setMapping_cons_no_match m rest meeting st hm, List.cons_append,
      ih (fun m' hm' => h m' (List.mem_cons_of_mem m hm'))]

/-- With the keys pairwise distinct, a match at position i makes the upsert
replace exactly the slackStatus at position i, keeping the stored
calendarText and every other entry. -/
theorem setMapping_replaces_at_match (meeting : String) (st : SlackStatus) :
    ∀ l : List StatusMapping, ((l.map lowerKey).Nodup) →
      ∀ i : Nat, ∀ hi : i < l.length,
        lowerKey (l.get ⟨i, hi⟩) = lowerString meeting →
        setMapping l meeting st
          = l.set i { calendarText := (l.get ⟨i, hi⟩).calendarText, slackStatus := st } := by
  intro l
  induction l with
  | nil =>
    intro _ i hi
    exact absurd hi (by simp)
  | cons m rest ih =>
    intro hd i hi hmatch
    rw [List.map_cons, List.nodup_cons] at hd
    obtain ⟨hnotin, hrest⟩ := hd
    match i with
    | 0 =>
      have hm : (lowerString m.calendarText == lowerString meeting) = true := by
        simpa [lowerKey, List.get_cons_zero] using hmatch
      rw [setMapping_cons_match m rest meeting st hm]
      simp [List.set_cons_zero, List.get_cons_zero]
    | j + 1 =>
      have hj2 : j < rest.length := Nat.lt_of_succ_lt_succ hi
      have hmatch2 : lowerKey (rest.get ⟨j, hj2⟩) = lowerString meeting := by
        simpa [List.get_cons_succ] using hmatch
      have hmem : lowerString meeting ∈ rest.map lowerKey := by
        rw [← hmatch2]
        exact List.mem_map_of_mem lowerKey (List.get_mem rest j hj2)
      have hm : (lowerString m.calendarText == lowerString meeting) = false := by
        by_contra hc
        rw [Bool.not_eq_false, beq_iff_eq] at hc
        refine hnotin ?_
        rw [show lowerKey m = lowerString m.calendarText from rfl, hc]
        exact hmem
      rw [setMapping_cons_no_match m rest meeting st hm, List.set_cons_succ,
        ih hrest j hj2 hmatch2]
      simp [List.get_cons_succ]

/-- C5.  For every mapping list whose lowercased calendarText keys are
pairwise distinct, the upsert the set command performs on statusMappings
(handleSet applies setMapping to the stored list) preserves that
distinctness; when the entry at position i matches the meeting name
case-insensitively, the list is updated in place at i — same position,
the calendarText casing of the first insertion kept, only the slackStatus
replaced, no entry added — and when no entry matches, exactly one new
mapping is appended at the end. -/
theorem set_preserves_mapping_uniqueness (l : List StatusMapping) (meeting : String)
    (st : SlackStatus) (hdist : (l.map lowerKey).Nodup) :
    ((setMapping l meeting st).map lowerKey).Nodup
    ∧ ((∀ m ∈ l, lowerKey m ≠ lowerString meeting) →
        setMapping l meeting st = l ++ [{ calendarText := meeting, slackStatus := st }])
    ∧ (∀ i : Nat, ∀ hi : i < l.length,
        lowerKey (l.get ⟨i, hi⟩) = lowerString meeting →
        setMapping l meeting st
          = l.set i { calendarText := (l.get ⟨i, hi⟩).calendarText, slackStatus := st }) :=
  ⟨setMapping_preserves_nodup meeting st l hdist,
    fun h => setMapping_appends_when_no_match meeting st l h,
    fun i hi h => setMapping_replaces_at_match meeting st l hdist i hi h⟩

/-- Witness for C5: updating the "Standup" mapping through the meeting
name "standup" replaces the status in place and keeps a single entry. -/
theorem set_preserves_mapping_uniqueness_witness :
    (([{ calendarText := "Standup", slackStatus := sampleStatus }].map lowerKey).Nodup)
    ∧ setMapping [{ calendarText := "Standup", slackStatus := sampleStatus }]
        "standup" sampleStatus2
      = [{ calendarText := "Standup", slackStatus := sampleStatus2 }] := by
  refine ⟨by decide, ?_⟩
  have h := set_preserves_mapping_uniqueness
    [{ calendarText := "Standup", slackStatus := sampleStatus }] "standup" sampleStatus2
    (by decide)
  have h3 := h.2.2 0 (by decide) (by decide)
  simpa using h3

end CalendarToSlack
